import Mathlib

/-!
Shallow embedding of the two view components of the react-redux-digi-form
repository:

* `src/frontend/src/pages/PostDetail/index.js` — the blog-post detail view
  (`PostDetail`): lifecycle fetch hooks, comment submission, sign-in
  handling and the status-driven render.
* `src/unnamed/part_000` — the donor listing view (`Donors`): the mount-time
  fetch guard and the per-item card rendering.

The store slices (`auth`, `blog`, `donors`) are external to these files;
their shapes are modelled from the spec's data model (section 3) and from
how the two components read them.  Rendered JSX is modelled as an `Html`
tree whose constructors mirror the React elements the components produce;
dispatched redux actions are modelled as an explicit `StoreAction` list returned
by each handler.  Fallible renders (Immutable.js `get`/`toJS` on an absent
value throws) are modelled with `Option`.
-/

/-- Request status enum `{API_PENDING, API_SUCCESS, API_FAIL}` from
`store/api/request` (modelled from the spec, section 3: exactly one of the
three values is active per resource). -/
inductive ApiStatus where
  | pending
  | success
  | fail
deriving DecidableEq, Repr

/-- The authenticated user, as consumed by `PostDetail` (`auth.get('currentUser')`,
`comment.user.full_name`). -/
structure User where
  full_name : String
deriving DecidableEq, Repr

/-- A comment as rendered by `PostDetail.renderDetail`: content text,
creation timestamp and author. -/
structure Comment where
  content : String
  created_at : String
  user : User
deriving DecidableEq, Repr

/-- An entry of the detail's `similar_posts` collection; `renderDetail`
only reads its `pk`. -/
structure SimilarPost where
  pk : Nat
deriving DecidableEq, Repr

/-- The post-detail entity as read by `PostDetail`: `title`,
`featured_image`, `content`, and the nested `similar_posts` collection
(which the code dereferences without a default, hence `Option`). -/
structure Post where
  title : String
  featured_image : String
  content : String
  similar_posts : Option (List SimilarPost)
deriving DecidableEq, Repr

/-- The `blog` store slice as read by `PostDetail`:
`postDetail`, `postDetailStatus`, `commentList`.  `postDetail` and
`commentList` are `Option` because the component reads them with
Immutable.js `get`, which yields an absent value before a successful
fetch. -/
structure BlogState where
  postDetail : Option Post
  postDetailStatus : ApiStatus
  commentList : Option (List Comment)
deriving DecidableEq, Repr

/-- The `auth` store slice as read by `PostDetail`: `currentUser`,
absent when not authenticated. -/
structure AuthState where
  currentUser : Option User
deriving DecidableEq, Repr

/-- A media entry of a donor item; `Donors.render` reads
`donor.getIn(['media', 0, 'url'], '')`. -/
structure Media where
  url : String
deriving DecidableEq, Repr

/-- A donor list item as read by `Donors.render`: `pk`, `title`,
`description` and the optional `media` collection. -/
structure Donor where
  pk : Nat
  title : String
  description : String
  media : Option (List Media)
deriving DecidableEq, Repr

/-- The `donors` store slice as read by `Donors`:
`donorListPage` and the `donorListPageLoaded` flag. -/
structure DonorsState where
  donorListPage : List Donor
  donorListPageLoaded : Bool
deriving DecidableEq, Repr

/-- The application store: the three slices the two components select
(`authSelector`, `blogSelector`, `donorsSelector`). -/
structure StoreState where
  auth : AuthState
  blog : BlogState
  donors : DonorsState
deriving DecidableEq, Repr

/-- Selector `authSelector` from `store/selectors`. -/
def authSelector (s : StoreState) : AuthState := s.auth

/-- Selector `blogSelector` from `store/selectors`. -/
def blogSelector (s : StoreState) : BlogState := s.blog

/-- Selector `donorsSelector` from `store/selectors`. -/
def donorsSelector (s : StoreState) : DonorsState := s.donors

/-- Payload of the comment form (`data` argument of
`handlePostComment`); its internal structure is opaque to `PostDetail`. -/
structure CommentData where
  raw : String
deriving DecidableEq, Repr

/-- Redux actions dispatched by the two components:
`getPostDetail`, `getPostCommentList`, `createPostComment` (from
`store/modules/blog`), `show` (from `redux-modal`) and
`getDonorListPage` (from `store/modules/donors`). -/
inductive StoreAction where
  | getPostDetail (id : String)
  | getPostCommentList (id : String)
  | createPostComment (id : String) (data : CommentData)
  | showModal (name : String)
  | getDonorListPage
deriving DecidableEq, Repr

/-- Click handlers attached to rendered elements: `handleSignIn` on the
sign-in link and `handlePostComment` on the comment form. -/
inductive Handler where
  | signIn
  | postComment
deriving DecidableEq, Repr

/-- A breadcrumb entry (`{ route, text }`); the last entry has no route. -/
structure Crumb where
  route : Option String
  text : String
deriving DecidableEq, Repr

/-- Rendered markup, one constructor per React element kind the two
components emit.  `momentLL` stands for the text produced by
`moment(raw).format('ll')` (the external moment library, abstracted as a
node carrying the raw timestamp). -/
inductive Html where
  | spinner
  | sectionTitleNode (children : List Html)
  | centerNode (children : List Html)
  | textNode (s : String)
  | imgNode (src alt cls : String)
  | rawHtmlNode (s : String)
  | momentLL (raw : String)
  | pNode (children : List Html)
  | divNode (cls : String) (children : List Html)
  | sectionNode (title : String) (children : List Html)
  | rowNode (cls : String) (children : List Html)
  | colNode (xs : Nat) (cls : String) (children : List Html)
  | alertNode (color : String) (children : List Html)
  | linkNode (route cls : String) (onClick : Handler) (children : List Html)
  | commentFormNode (onSubmit : Handler) (user : User)
  | postItemNode (pk : Nat)
  | donorCardNode (id : Nat) (image title description : String)
  | layoutNode (breadcrumb : List Crumb) (title : Option String)
      (subscribe : Bool) (children : List Html)

mutual

/-- Predicate `containsB p h`: some node of the tree `h` (the root
included) satisfies `p`. -/
def containsB (p : Html → Bool) : Html → Bool
  | .sectionTitleNode cs => p (.sectionTitleNode cs) || containsListB p cs
  | .centerNode cs => p (.centerNode cs) || containsListB p cs
  | .pNode cs => p (.pNode cs) || containsListB p cs
  | .divNode c cs => p (.divNode c cs) || containsListB p cs
  | .sectionNode t cs => p (.sectionNode t cs) || containsListB p cs
  | .rowNode c cs => p (.rowNode c cs) || containsListB p cs
  | .colNode n c cs => p (.colNode n c cs) || containsListB p cs
  | .alertNode c cs => p (.alertNode c cs) || containsListB p cs
  | .linkNode t c k cs => p (.linkNode t c k cs) || containsListB p cs
  | .layoutNode b t s cs => p (.layoutNode b t s cs) || containsListB p cs
  | h => p h

/-- Predicate `containsListB p hs`: some tree in the list `hs` contains a node
satisfying `p`. -/
def containsListB (p : Html → Bool) : List Html → Bool
  | [] => false
  | h :: t => containsB p h || containsListB p t

end

/-- The loading indicator (`<Spinner />`). -/
def isSpinner : Html → Bool
  | .spinner => true
  | _ => false

/-- The static not-found message (`<SectionTitle>` — used only in the FAIL
branch of `PostDetail.render`). -/
def isNotFound : Html → Bool
  | .sectionTitleNode _ => true
  | _ => false

/-- The detail content (`<div className="page-content">`, root of
`renderDetail`). -/
def isPageContent : Html → Bool
  | .divNode c _ => c == "page-content"
  | _ => false

/-- The comment submission form (`<CommentForm />`). -/
def isCommentForm : Html → Bool
  | .commentFormNode _ _ => true
  | _ => false

/-- The sign-in prompt link (`<Link to="/signin" onClick={handleSignIn}>`). -/
def isSignInLink : Html → Bool
  | .linkNode _ _ .signIn _ => true
  | _ => false

/-- An individual comment entry (`<div className="mb-4" key={index}>`). -/
def isCommentEntry : Html → Bool
  | .divNode c _ => c == "mb-4"
  | _ => false

/-- The comments section header carrying a count of 0
(`<Section title="Comments (0)">`). -/
def isCommentsHeaderZero : Html → Bool
  | .sectionNode t _ => t == "Comments (0)"
  | _ => false

/-- Method `PostDetail.breadcrumbPath`: Home, Posts, then the detail title (the
empty string when `postDetail` is absent). -/
def PostDetail.breadcrumbPath (blog : BlogState) : List Crumb :=
  [ { route := some "/", text := "Home" },
    { route := some "/blog", text := "Posts" },
    { route := none,
      text := match blog.postDetail with
        | some postDetail => postDetail.title
        | none => "" } ]

/-- Method `PostDetail.getDetail`: dispatch the detail fetch then
`getPostCommentList({id})`. -/
def PostDetail.getDetail (id : String) : List StoreAction :=
  [StoreAction.getPostDetail id, StoreAction.getPostCommentList id]

/-- Hook `PostDetail.componentWillMount`: fetch for the current route id. -/
def PostDetail.componentWillMount (id : String) : List StoreAction :=
  PostDetail.getDetail id

/-- Hook `PostDetail.componentWillReceiveProps`: compare
`this.props.match.params.id` with `nextProps.match.params.id` and re-fetch
for the next id exactly when they differ. -/
def PostDetail.componentWillReceiveProps (prevId nextId : String) : List StoreAction :=
  if prevId ≠ nextId then PostDetail.getDetail nextId else []

/-- Handler `PostDetail.handlePostComment`: dispatch a create-comment action
with the current route id and the form payload. -/
def PostDetail.handlePostComment (id : String) (data : CommentData) : List StoreAction :=
  [StoreAction.createPostComment id data]

/-- A DOM event as seen by a click handler; only `defaultPrevented` is
relevant (`e.preventDefault()`). -/
structure DomEvent where
  defaultPrevented : Bool
deriving DecidableEq, Repr

/-- Handler `PostDetail.handleSignIn`: call `e.preventDefault()` then dispatch
`show('signinModal')`. -/
def PostDetail.handleSignIn (e : DomEvent) : DomEvent × List StoreAction :=
  ({ e with defaultPrevented := true }, [StoreAction.showModal "signinModal"])

/-- One comment entry of the comments section (`comments.map((comment,
index) => ...)`). -/
def renderCommentEntry (index : Nat) (comment : Comment) : Html :=
  Html.divNode "mb-4"
    [ Html.divNode "mb-3" [Html.textNode comment.content],
      Html.rowNode ""
        [ Html.colNode 6 "mb-2" [Html.momentLL comment.created_at],
          Html.colNode 6 "text-right mb-2" [Html.textNode comment.user.full_name] ] ]

/-- The comment entries fragment:
`comments && !!comments.length && comments.map(...)` — JSX renders nothing
for the `false` short-circuit, and the map otherwise (the `index` of each
entry is its React key). -/
def commentEntries (comments : List Comment) : List Html :=
  if comments.length = 0 then []
  else comments.enum.map fun ic => renderCommentEntry ic.1 ic.2

/-- The sign-in prompt: `<Alert color="dark">Please <Link to="/signin"
className="alert-link" onClick={this.handleSignIn}>sign in</Link> to leave
comment</Alert>`. -/
def signInAlert : Html :=
  Html.alertNode "dark"
    [ Html.textNode "Please ",
      Html.linkNode "/signin" "alert-link" Handler.signIn [Html.textNode "sign in"],
      Html.textNode " to leave comment" ]

/-- The comments `<Section>`: title shows the comment count
(`comments` is an array after `.toJS()`, always truthy in JS, so
`comments ? comments.length : 0` equals `comments.length`), then the
entries, then the authentication-gated form or sign-in prompt. -/
def commentsSection (comments : List Comment) (user : Option User) : Html :=
  Html.sectionNode ("Comments (" ++ toString comments.length ++ ")")
    (commentEntries comments ++
      [ match user with
        | some u => Html.commentFormNode Handler.postComment u
        | none => signInAlert ])

/-- Method `PostDetail.renderDetail`: reads `commentList` (via `.toJS()`),
`postDetail` and its `similar_posts` with no defaults — each absent value
makes the JS throw, modelled as `none`. -/
def PostDetail.renderDetail (auth : AuthState) (blog : BlogState) : Option Html := do
  let comments ← blog.commentList
  let postDetail ← blog.postDetail
  let similarPosts ← postDetail.similar_posts
  let user := auth.currentUser
  pure (Html.divNode "page-content"
    [ Html.sectionNode postDetail.title
        [ Html.pNode [Html.imgNode postDetail.featured_image postDetail.title "w-100"],
          Html.divNode "my-5" [Html.rawHtmlNode postDetail.content] ],
      commentsSection comments user,
      Html.sectionNode "Similar Posts"
        [ Html.rowNode "mb-5" (similarPosts.map fun post => Html.postItemNode post.pk) ] ])

/-- The FAIL-branch message:
`<SectionTitle><center>Post not found</center></SectionTitle>`. -/
def notFoundMsg : Html :=
  Html.sectionTitleNode [Html.centerNode [Html.textNode "Post not found"]]

/-- Method `PostDetail.render`: the `FrontContainerLayout` wrapper with the three
status-guarded children (`{status === X && ...}` renders nothing when the
guard is false; `renderDetail()` is only evaluated in the SUCCESS case,
mirroring the `&&` short-circuit). -/
def PostDetail.render (auth : AuthState) (blog : BlogState) : Option Html := do
  let postDetailStatus := blog.postDetailStatus
  let successPart ←
    if postDetailStatus = ApiStatus.success then do
      let d ← PostDetail.renderDetail auth blog
      pure [d]
    else
      pure ([] : List Html)
  pure (Html.layoutNode (PostDetail.breadcrumbPath blog) none true
    ((if postDetailStatus = ApiStatus.pending then [Html.spinner] else []) ++
     (if postDetailStatus = ApiStatus.fail then [notFoundMsg] else []) ++
     successPart))

/-- The connected `PostDetail` render: props come from
`createStructuredSelector({auth: authSelector, blog: blogSelector})`. -/
def connectedPostDetailRender (s : StoreState) : Option Html :=
  PostDetail.render (authSelector s) (blogSelector s)

/-- Method `Donors.breadcrumbPath`. -/
def Donors.breadcrumbPath : List Crumb :=
  [ { route := some "/", text := "Home" },
    { route := none, text := "Donors" } ]

/-- Hook `Donors.componentWillMount`: dispatch `getDonorListPage()` exactly when
`donorListPageLoaded` is falsy. -/
def Donors.componentWillMount (donors : DonorsState) : List StoreAction :=
  if !donors.donorListPageLoaded then [StoreAction.getDonorListPage] else []

/-- Read `donor.getIn(['media', 0, 'url'], '')`: the url of the first media
entry, or the empty string when the path is absent. -/
def donorImage (donor : Donor) : String :=
  match donor.media with
  | none => ""
  | some ms =>
    match ms with
    | [] => ""
    | m :: _ => m.url

/-- One `<DonorCard>` of the listing. -/
def renderDonorCard (donor : Donor) : Html :=
  Html.donorCardNode donor.pk (donorImage donor) donor.title donor.description

/-- Method `Donors.render`: layout with breadcrumb and title, one card per item of
`donorListPage`, in store order. -/
def Donors.render (donors : DonorsState) : Html :=
  Html.layoutNode Donors.breadcrumbPath (some "Donors") true
    [Html.rowNode "" (donors.donorListPage.map renderDonorCard)]

/-- The connected `Donors` render (`donorsSelector`). -/
def connectedDonorsRender (s : StoreState) : Html :=
  Donors.render (donorsSelector s)

/-! ## Helper lemmas about `containsB` -/

theorem containsListB_append (p : Html → Bool) (a b : List Html) :
    containsListB p (a ++ b) = (containsListB p a || containsListB p b) := by
  induction a with
  | nil => simp [containsListB]
  | cons h t ih => simp [containsListB, ih, Bool.or_assoc]

/-- A node predicate that rejects every constructor occurring in a comment
entry never fires inside one. -/
theorem containsB_entry_false (p : Html → Bool)
    (hdiv : ∀ c cs, p (Html.divNode c cs) = false)
    (hrow : ∀ c cs, p (Html.rowNode c cs) = false)
    (hcol : ∀ n c cs, p (Html.colNode n c cs) = false)
    (htext : ∀ t, p (Html.textNode t) = false)
    (hmoment : ∀ r, p (Html.momentLL r) = false)
    (i : Nat) (c : Comment) :
    containsB p (renderCommentEntry i c) = false := by
  simp [renderCommentEntry, containsB, containsListB,
    hdiv, hrow, hcol, htext, hmoment]

theorem containsListB_entries_false (p : Html → Bool)
    (hdiv : ∀ c cs, p (Html.divNode c cs) = false)
    (hrow : ∀ c cs, p (Html.rowNode c cs) = false)
    (hcol : ∀ n c cs, p (Html.colNode n c cs) = false)
    (htext : ∀ t, p (Html.textNode t) = false)
    (hmoment : ∀ r, p (Html.momentLL r) = false)
    (comments : List Comment) :
    containsListB p (commentEntries comments) = false := by
  unfold commentEntries
  split
  · rfl
  · generalize comments.enum = l
    induction l with
    | nil => rfl
    | cons hd tl ih =>
      simp [containsListB, ih,
        containsB_entry_false p hdiv hrow hcol htext hmoment]

theorem containsListB_postItems_false (p : Html → Bool)
    (hpost : ∀ k, p (Html.postItemNode k) = false) (l : List SimilarPost) :
    containsListB p (l.map fun post => Html.postItemNode post.pk) = false := by
  induction l with
  | nil => rfl
  | cons hd tl ih => simp [containsListB, containsB, hpost, ih]

/-! ## Claims about lifecycle hooks and handlers -/

/-- C2: for successive route identifiers `a` (previous) and `b` (next),
`componentWillReceiveProps` dispatches exactly one detail fetch and exactly
one comment-list fetch, both for `b`, when `a ≠ b`, and dispatches nothing
when `a = b`. -/
theorem receiveProps_refetch_iff_id_changed (a b : String) :
    (a ≠ b →
      PostDetail.componentWillReceiveProps a b =
        [StoreAction.getPostDetail b, StoreAction.getPostCommentList b] ∧
      (PostDetail.componentWillReceiveProps a b).count (StoreAction.getPostDetail b) = 1 ∧
      (PostDetail.componentWillReceiveProps a b).count (StoreAction.getPostCommentList b) = 1 ∧
      (PostDetail.componentWillReceiveProps a b).length = 2) ∧
    (a = b → PostDetail.componentWillReceiveProps a b = []) := by
  constructor
  · intro hne
    simp [PostDetail.componentWillReceiveProps, PostDetail.getDetail, hne,
      List.count_cons]
  · intro heq
    simp [PostDetail.componentWillReceiveProps, heq]

/-- Witness for C2 at the concrete identifier change "1" → "2" and the
unchanged pair "1" → "1". -/
theorem receiveProps_refetch_iff_id_changed_witness :
    (PostDetail.componentWillReceiveProps "1" "2" =
        [StoreAction.getPostDetail "2", StoreAction.getPostCommentList "2"] ∧
      (PostDetail.componentWillReceiveProps "1" "2").count (StoreAction.getPostDetail "2") = 1 ∧
      (PostDetail.componentWillReceiveProps "1" "2").count (StoreAction.getPostCommentList "2") = 1 ∧
      (PostDetail.componentWillReceiveProps "1" "2").length = 2) ∧
    PostDetail.componentWillReceiveProps "1" "1" = [] :=
  ⟨(receiveProps_refetch_iff_id_changed "1" "2").1 (by decide),
   (receiveProps_refetch_iff_id_changed "1" "1").2 rfl⟩

/-- C3: `Donors.componentWillMount` dispatches exactly one parameterless
`getDonorListPage` action when `donorListPageLoaded` is false, and no
action when it is true. -/
theorem donors_mount_fetch_iff_not_loaded (donors : DonorsState) :
    (donors.donorListPageLoaded = false →
      Donors.componentWillMount donors = [StoreAction.getDonorListPage] ∧
      (Donors.componentWillMount donors).length = 1) ∧
    (donors.donorListPageLoaded = true →
      Donors.componentWillMount donors = []) := by
  constructor
  · intro hl; simp [Donors.componentWillMount, hl]
  · intro hl; simp [Donors.componentWillMount, hl]

/-- Witness for C3 at a not-yet-loaded and a loaded donors slice. -/
theorem donors_mount_fetch_iff_not_loaded_witness :
    (Donors.componentWillMount { donorListPage := [], donorListPageLoaded := false } =
        [StoreAction.getDonorListPage] ∧
      (Donors.componentWillMount
        { donorListPage := [], donorListPageLoaded := false }).length = 1) ∧
    Donors.componentWillMount { donorListPage := [], donorListPageLoaded := true } = [] :=
  ⟨(donors_mount_fetch_iff_not_loaded _).1 rfl,
   (donors_mount_fetch_iff_not_loaded _).2 rfl⟩

/-- C5: submitting the comment form with payload `data` while the route
identifier is `id` dispatches exactly the one action
`createPostComment {id, data}` and nothing else. -/
theorem post_comment_single_action (id : String) (data : CommentData) :
    PostDetail.handlePostComment id data = [StoreAction.createPostComment id data] ∧
    (PostDetail.handlePostComment id data).length = 1 ∧
    (PostDetail.handlePostComment id data).count (StoreAction.createPostComment id data) = 1 := by
  simp [PostDetail.handlePostComment]

/-- C9: `PostDetail.breadcrumbPath` is total on every blog slice and always
yields the three entries Home, Posts and the detail title, the latter being
the empty string when `postDetail` is absent. -/
theorem breadcrumb_always_three_entries (blog : BlogState) :
    (PostDetail.breadcrumbPath blog).length = 3 ∧
    (blog.postDetail = none →
      PostDetail.breadcrumbPath blog =
        [ { route := some "/", text := "Home" },
          { route := some "/blog", text := "Posts" },
          { route := none, text := "" } ]) ∧
    (∀ p, blog.postDetail = some p →
      PostDetail.breadcrumbPath blog =
        [ { route := some "/", text := "Home" },
          { route := some "/blog", text := "Posts" },
          { route := none, text := p.title } ]) := by
  refine ⟨rfl, ?_, ?_⟩
  · intro hn; simp [PostDetail.breadcrumbPath, hn]
  · intro p hp; simp [PostDetail.breadcrumbPath, hp]

/-- Witness for C9 at a blog slice with no loaded detail. -/
theorem breadcrumb_always_three_entries_witness :
    PostDetail.breadcrumbPath
        { postDetail := none, postDetailStatus := ApiStatus.pending, commentList := none } =
      [ { route := some "/", text := "Home" },
        { route := some "/blog", text := "Posts" },
        { route := none, text := "" } ] :=
  (breadcrumb_always_three_entries _).2.1 rfl

/-- C7: an item of `donorListPage` whose `media` reference is absent still
renders — the listing's row holds its card with the empty string as image
source and `pk`, `title`, `description` passed through unchanged. -/
theorem donor_card_missing_media_defaults (donors : DonorsState) (d : Donor)
    (hd : d ∈ donors.donorListPage) (hm : d.media = none) :
    ∃ cards,
      Donors.render donors =
        Html.layoutNode Donors.breadcrumbPath (some "Donors") true
          [Html.rowNode "" cards] ∧
      Html.donorCardNode d.pk "" d.title d.description ∈ cards := by
  refine ⟨donors.donorListPage.map renderDonorCard, rfl, ?_⟩
  have hcard : renderDonorCard d = Html.donorCardNode d.pk "" d.title d.description := by
    simp [renderDonorCard, donorImage, hm]
  exact hcard ▸ List.mem_map_of_mem renderDonorCard hd

/-- Witness for C7 at a one-item listing whose item has no media. -/
theorem donor_card_missing_media_defaults_witness :
    ∃ cards,
      Donors.render
          { donorListPage := [{ pk := 7, title := "t", description := "d", media := none }],
            donorListPageLoaded := true } =
        Html.layoutNode Donors.breadcrumbPath (some "Donors") true
          [Html.rowNode "" cards] ∧
      Html.donorCardNode 7 "" "t" "d" ∈ cards :=
  donor_card_missing_media_defaults
    { donorListPage := [{ pk := 7, title := "t", description := "d", media := none }],
      donorListPageLoaded := true }
    { pk := 7, title := "t", description := "d", media := none }
    (List.mem_singleton.mpr rfl) rfl

/-! ## Sample store states used by the witnesses -/

/-- A loaded post with no similar posts. -/
def samplePost : Post :=
  { title := "t", featured_image := "i", content := "c", similar_posts := some [] }

/-- A blog slice in the SUCCESS state with `samplePost` and an empty
comment list. -/
def sampleSuccessBlog : BlogState :=
  { postDetail := some samplePost, postDetailStatus := ApiStatus.success,
    commentList := some [] }

/-- A store in the SUCCESS state with no signed-in user. -/
def sampleSuccessStore : StoreState :=
  { auth := { currentUser := none }, blog := sampleSuccessBlog,
    donors := { donorListPage := [], donorListPageLoaded := false } }

/-- A store whose detail fetch is still PENDING. -/
def samplePendingStore : StoreState :=
  { auth := { currentUser := none },
    blog := { postDetail := none, postDetailStatus := ApiStatus.pending,
              commentList := none },
    donors := { donorListPage := [], donorListPageLoaded := false } }

/-- The markup `PostDetail.renderDetail` produces on `sampleSuccessStore`. -/
def sampleDetailHtml : Html :=
  Html.divNode "page-content"
    [ Html.sectionNode "t"
        [ Html.pNode [Html.imgNode "i" "t" "w-100"],
          Html.divNode "my-5" [Html.rawHtmlNode "c"] ],
      Html.sectionNode "Comments (0)" [signInAlert],
      Html.sectionNode "Similar Posts" [Html.rowNode "mb-5" []] ]

/-! ## Claims about the status-driven render -/

/-- C1: the detail render is driven by `postDetailStatus` alone: PENDING
yields the spinner and neither the not-found message nor the detail
content, FAIL yields only the static not-found message, SUCCESS yields the
detail content produced by `renderDetail` — exactly one branch per status
value. -/
theorem render_branches_by_status (s : StoreState) :
    (s.blog.postDetailStatus = ApiStatus.pending →
      ∃ h, connectedPostDetailRender s = some h ∧
        h = Html.layoutNode (PostDetail.breadcrumbPath s.blog) none true [Html.spinner] ∧
        containsB isSpinner h = true ∧ containsB isNotFound h = false ∧
        containsB isPageContent h = false) ∧
    (s.blog.postDetailStatus = ApiStatus.fail →
      ∃ h, connectedPostDetailRender s = some h ∧
        h = Html.layoutNode (PostDetail.breadcrumbPath s.blog) none true [notFoundMsg] ∧
        containsB isNotFound h = true ∧ containsB isSpinner h = false ∧
        containsB isPageContent h = false) ∧
    (s.blog.postDetailStatus = ApiStatus.success →
      ∀ h, connectedPostDetailRender s = some h →
        ∃ d, PostDetail.renderDetail s.auth s.blog = some d ∧
          h = Html.layoutNode (PostDetail.breadcrumbPath s.blog) none true [d] ∧
          containsB isPageContent h = true) := by
  refine ⟨?_, ?_, ?_⟩
  · intro hp
    refine ⟨_, ?_, rfl, ?_, ?_, ?_⟩
    · simp [connectedPostDetailRender, authSelector, blogSelector,
        PostDetail.render, hp]
    · simp [containsB, containsListB, isSpinner]
    · simp [containsB, containsListB, isNotFound]
    · simp [containsB, containsListB, isPageContent]
  · intro hf
    refine ⟨_, ?_, rfl, ?_, ?_, ?_⟩
    · simp [connectedPostDetailRender, authSelector, blogSelector,
        PostDetail.render, hf]
    · simp [containsB, containsListB, isNotFound, notFoundMsg]
    · simp [containsB, containsListB, isSpinner, notFoundMsg]
    · simp [containsB, containsListB, isPageContent, notFoundMsg]
  · intro hs h hr
    simp [connectedPostDetailRender, authSelector, blogSelector,
      PostDetail.render, hs] at hr
    obtain ⟨d, hd, hh⟩ := Option.bind_eq_some.mp hr
    have hh2 : h = Html.layoutNode (PostDetail.breadcrumbPath s.blog) none true [d] :=
      (Option.some_inj.mp hh).symm
    refine ⟨d, hd, hh2, ?_⟩
    simp [PostDetail.renderDetail] at hd
    obtain ⟨comments, hcl, hd2⟩ := Option.bind_eq_some.mp hd
    obtain ⟨postDetail, hpd, hd3⟩ := Option.bind_eq_some.mp hd2
    obtain ⟨similarPosts, hsp, hd4⟩ := Option.bind_eq_some.mp hd3
    have hd5 := Option.some_inj.mp hd4
    subst hh2
    subst hd5
    simp [containsB, containsListB, isPageContent]

/-- Witness for C1 at the PENDING sample store. -/
theorem render_branches_by_status_witness :
    ∃ h, connectedPostDetailRender samplePendingStore = some h ∧
      h = Html.layoutNode (PostDetail.breadcrumbPath samplePendingStore.blog)
            none true [Html.spinner] ∧
      containsB isSpinner h = true ∧ containsB isNotFound h = false ∧
      containsB isPageContent h = false :=
  (render_branches_by_status samplePendingStore).1 rfl

/-- C8: the detail render reads nothing but the tuple (detail-fetch
status, detail entity, comment list, current user): two store states that
agree on the tuple render identically, whatever else (e.g. the donors
slice) differs. -/
theorem render_depends_only_on_tuple (s1 s2 : StoreState)
    (hst : s1.blog.postDetailStatus = s2.blog.postDetailStatus)
    (hpd : s1.blog.postDetail = s2.blog.postDetail)
    (hcl : s1.blog.commentList = s2.blog.commentList)
    (hu : s1.auth.currentUser = s2.auth.currentUser) :
    connectedPostDetailRender s1 = connectedPostDetailRender s2 := by
  have hb : s1.blog = s2.blog := by
    have e1 : s1.blog =
        { postDetail := s1.blog.postDetail,
          postDetailStatus := s1.blog.postDetailStatus,
          commentList := s1.blog.commentList } := rfl
    have e2 : s2.blog =
        { postDetail := s2.blog.postDetail,
          postDetailStatus := s2.blog.postDetailStatus,
          commentList := s2.blog.commentList } := rfl
    rw [e1, e2, hst, hpd, hcl]
  have ha : s1.auth = s2.auth := by
    have e1 : s1.auth = { currentUser := s1.auth.currentUser } := rfl
    have e2 : s2.auth = { currentUser := s2.auth.currentUser } := rfl
    rw [e1, e2, hu]
  simp [connectedPostDetailRender, authSelector, blogSelector, hb, ha]

/-- Witness for C8: two stores that differ only in the donors slice. -/
theorem render_depends_only_on_tuple_witness :
    connectedPostDetailRender sampleSuccessStore =
      connectedPostDetailRender
        { auth := { currentUser := none }, blog := sampleSuccessBlog,
          donors := { donorListPage := [], donorListPageLoaded := true } } :=
  render_depends_only_on_tuple _ _ rfl rfl rfl rfl

/-- C10: in the SUCCESS state the render dereferences `postDetail`, its
`similar_posts` and `commentList` with no defaults: it fails (throws,
modelled as `none`) when any of the three is absent, and produces output
when all three are present. -/
theorem success_render_requires_presence (s : StoreState)
    (hs : s.blog.postDetailStatus = ApiStatus.success) :
    ((s.blog.postDetail = none ∨ s.blog.commentList = none ∨
        (∃ p, s.blog.postDetail = some p ∧ p.similar_posts = none)) →
      connectedPostDetailRender s = none) ∧
    (∀ p cl sp, s.blog.postDetail = some p → s.blog.commentList = some cl →
      p.similar_posts = some sp →
      ∃ h, connectedPostDetailRender s = some h) := by
  constructor
  · rintro (hn | hn | ⟨p, hp, hsp⟩)
    · rcases hcl : s.blog.commentList with _ | cl <;>
        simp [connectedPostDetailRender, authSelector, blogSelector,
          PostDetail.render, PostDetail.renderDetail, hs, hn, hcl]
    · simp [connectedPostDetailRender, authSelector, blogSelector,
        PostDetail.render, PostDetail.renderDetail, hs, hn]
    · rcases hcl : s.blog.commentList with _ | cl <;>
        simp [connectedPostDetailRender, authSelector, blogSelector,
          PostDetail.render, PostDetail.renderDetail, hs, hp, hsp, hcl]
  · intro p cl sp hp hcl hsp
    simp [connectedPostDetailRender, authSelector, blogSelector,
      PostDetail.render, PostDetail.renderDetail, hs, hp, hcl, hsp]

/-- Witness for C10: a SUCCESS store with no loaded detail renders to
`none`. -/
theorem success_render_requires_presence_witness :
    connectedPostDetailRender
        { auth := { currentUser := none },
          blog := { postDetail := none, postDetailStatus := ApiStatus.success,
                    commentList := none },
          donors := { donorListPage := [], donorListPageLoaded := false } } = none :=
  (success_render_requires_presence _ rfl).1 (Or.inl rfl)

/-- C4: in the SUCCESS state the comments section is gated on
authentication: with no `currentUser` the output holds the sign-in prompt
and no comment form, and clicking the prompt prevents the default link
navigation and dispatches `show('signinModal')`; with a `currentUser` the
comment form renders and the sign-in prompt does not. -/
theorem success_auth_gating (s : StoreState)
    (hs : s.blog.postDetailStatus = ApiStatus.success) :
    (∀ h, connectedPostDetailRender s = some h →
      (s.auth.currentUser = none →
        containsB isSignInLink h = true ∧ containsB isCommentForm h = false) ∧
      (∀ u, s.auth.currentUser = some u →
        containsB isCommentForm h = true ∧ containsB isSignInLink h = false)) ∧
    (∀ e, (PostDetail.handleSignIn e).1.defaultPrevented = true ∧
      (PostDetail.handleSignIn e).2 = [StoreAction.showModal "signinModal"]) := by
  constructor
  · intro h hr
    simp [connectedPostDetailRender, authSelector, blogSelector,
      PostDetail.render, hs] at hr
    obtain ⟨d, hd, hh⟩ := Option.bind_eq_some.mp hr
    have hh2 : h = Html.layoutNode (PostDetail.breadcrumbPath s.blog) none true [d] :=
      (Option.some_inj.mp hh).symm
    simp [PostDetail.renderDetail] at hd
    obtain ⟨comments, hcl, hd2⟩ := Option.bind_eq_some.mp hd
    obtain ⟨postDetail, hpd, hd3⟩ := Option.bind_eq_some.mp hd2
    obtain ⟨similarPosts, hsp, hd4⟩ := Option.bind_eq_some.mp hd3
    have hd5 := Option.some_inj.mp hd4
    subst hh2
    subst hd5
    constructor
    · intro hu
      have hent := containsListB_entries_false isCommentForm
        (fun _ _ => rfl) (fun _ _ => rfl) (fun _ _ _ => rfl) (fun _ => rfl)
        (fun _ => rfl) comments
      have hpost := containsListB_postItems_false isCommentForm
        (fun _ => rfl) similarPosts
      constructor
      · simp [containsB, containsListB, commentsSection, containsListB_append,
          signInAlert, isSignInLink, hu]
      · simp [containsB, containsListB, commentsSection, containsListB_append,
          signInAlert, isCommentForm, hu, hent, hpost]
    · intro u hu
      have hent := containsListB_entries_false isSignInLink
        (fun _ _ => rfl) (fun _ _ => rfl) (fun _ _ _ => rfl) (fun _ => rfl)
        (fun _ => rfl) comments
      have hpost := containsListB_postItems_false isSignInLink
        (fun _ => rfl) similarPosts
      constructor
      · simp [containsB, containsListB, commentsSection, containsListB_append,
          isCommentForm, hu]
      · simp [containsB, containsListB, commentsSection, containsListB_append,
          isSignInLink, hu, hent, hpost]
  · intro e
    exact ⟨rfl, rfl⟩

/-- Witness for C4 at the signed-out SUCCESS sample store. -/
theorem success_auth_gating_witness :
    containsB isSignInLink
        (Html.layoutNode (PostDetail.breadcrumbPath sampleSuccessStore.blog) none true
          [sampleDetailHtml]) = true ∧
    containsB isCommentForm
        (Html.layoutNode (PostDetail.breadcrumbPath sampleSuccessStore.blog) none true
          [sampleDetailHtml]) = false :=
  ((success_auth_gating sampleSuccessStore rfl).1 _ rfl).1 rfl

/-- C6: in the SUCCESS state with an empty comment list the comments
section header reads "Comments (0)" and no individual comment entry
(`<div className="mb-4">`) renders anywhere in the output. -/
theorem zero_comments_header_and_no_entries (s : StoreState)
    (hs : s.blog.postDetailStatus = ApiStatus.success)
    (hc : s.blog.commentList = some []) :
    ∀ h, connectedPostDetailRender s = some h →
      containsB isCommentsHeaderZero h = true ∧
      containsB isCommentEntry h = false := by
  intro h hr
  simp [connectedPostDetailRender, authSelector, blogSelector,
    PostDetail.render, hs] at hr
  obtain ⟨d, hd, hh⟩ := Option.bind_eq_some.mp hr
  have hh2 : h = Html.layoutNode (PostDetail.breadcrumbPath s.blog) none true [d] :=
    (Option.some_inj.mp hh).symm
  simp [PostDetail.renderDetail] at hd
  obtain ⟨comments, hcl, hd2⟩ := Option.bind_eq_some.mp hd
  obtain ⟨postDetail, hpd, hd3⟩ := Option.bind_eq_some.mp hd2
  obtain ⟨similarPosts, hsp, hd4⟩ := Option.bind_eq_some.mp hd3
  have hd5 := Option.some_inj.mp hd4
  have hce : comments = [] := Option.some_inj.mp (hcl.symm.trans hc)
  subst hh2
  subst hd5
  subst hce
  have hstr : ("Comments (" ++ toString (0 : Nat) ++ ")") = "Comments (0)" := rfl
  have hpost := containsListB_postItems_false isCommentEntry
    (fun _ => rfl) similarPosts
  have hpc : (("page-content" : String) == "mb-4") = false := by decide
  have hmy : (("my-5" : String) == "mb-4") = false := by decide
  constructor
  · rcases hu : s.auth.currentUser with _ | u <;>
      simp [containsB, containsListB, commentsSection, commentEntries, hu,
        hstr, isCommentsHeaderZero]
  · rcases hu : s.auth.currentUser with _ | u <;>
      simp [containsB, containsListB, commentsSection, commentEntries, hu,
        signInAlert, isCommentEntry, hpc, hmy, hpost]

/-- Witness for C6 at the signed-out SUCCESS sample store, whose comment
list is empty. -/
theorem zero_comments_header_and_no_entries_witness :
    containsB isCommentsHeaderZero
        (Html.layoutNode (PostDetail.breadcrumbPath sampleSuccessStore.blog) none true
          [sampleDetailHtml]) = true ∧
    containsB isCommentEntry
        (Html.layoutNode (PostDetail.breadcrumbPath sampleSuccessStore.blog) none true
          [sampleDetailHtml]) = false :=
  zero_comments_header_and_no_entries sampleSuccessStore rfl rfl _ rfl
